import Mathlib

/-!
Shallow embedding of `src/index.js` (wait-for-netlify-action).

The program polls the Netlify API until a deployment for a commit is
created and ready, then polls the resulting public URL.  The embedding
models:

* JavaScript numbers just far enough to capture `NaN` (`JsNum`), since
  the timeout checks in the source call `ellapsedSeconds()` with no
  argument, so `Date.now() - undefined` is `NaN`;
* thrown errors as an explicit `JsError` value (`Error` vs `TypeError`);
* the observable actions of a run (`Effect`): HTTP GET / HEAD requests,
  `core.setFailed`, `core.setOutput`, and sleeps;
* each waiter as a function over an explicit list of per-iteration
  oracle data `(now, response)` where `now` is the value `Date.now()`
  would return at that iteration (milliseconds) and `response` is the
  `data` field of the axios response for that iteration's request.
  An empty remainder of the list yields the artificial result
  `stillRunning`: the real loop would keep iterating.
-/

/-- A JavaScript number: either NaN or an actual rational value. -/
inductive JsNum where
  | nan
  | num (q : ℚ)
deriving DecidableEq, Repr

/-- JavaScript `>` on numbers: any comparison with NaN is false. -/
def jsGt : JsNum → JsNum → Bool
  | JsNum.nan, _ => false
  | _, JsNum.nan => false
  | JsNum.num a, JsNum.num b => decide (b < a)

/-- `Math.round(s * 10) / 10` (round half towards positive infinity). -/
def jsRound10 (s : ℚ) : ℚ :=
  (⌊s * 10 + 1 / 2⌋ : ℚ) / 10

/-- `ellapsedSeconds` from src/index.js:172-175:
`Math.round(((Date.now() - timestamp) / 1000) * 10) / 10`.
The `timestamp` parameter is `Option ℚ` because the source's timeout
checks (lines 29 and 69) call `ellapsedSeconds()` with no argument, so
`timestamp` is `undefined` and the subtraction yields NaN. -/
def ellapsedSeconds (timestamp : Option ℚ) (now : ℚ) : JsNum :=
  match timestamp with
  | none => JsNum.nan
  | some t => JsNum.num (jsRound10 ((now - t) / 1000))

/-- A thrown JavaScript error: `new Error(msg)` or a runtime `TypeError`. -/
inductive JsError where
  | error (msg : String)
  | typeError (msg : String)
deriving DecidableEq, Repr

/-- Message extraction done by the top-level catch in `run`
(`typeof error === 'string' ? error : error.message`); our model only
throws error objects, so this reads the `.message` field. -/
def errorMessage : JsError → String
  | JsError.error m => m
  | JsError.typeError m => m

/-- A Netlify deployment record, with the fields src/index.js reads:
`id`, `name`, `commit_ref`, `context` (possibly absent) and `state`. -/
structure Deployment where
  id : String
  name : String
  commit_ref : String
  context : Option String
  state : String
deriving DecidableEq, Repr

/-- `READY_STATES` from src/index.js:5. -/
def READY_STATES : List String := ["ready", "current"]

/-- Observable actions of the run. `sleep` durations are in seconds. -/
inductive Effect where
  | httpGet (url : String)
  | httpHead (url : String)
  | setFailed (msg : String)
  | setOutput (key : String) (value : String)
  | sleep (seconds : ℚ)
deriving DecidableEq, Repr

/-- Result of a waiter loop: normal return, thrown error, or the loop
still running when the supplied per-iteration data runs out. -/
inductive WaitResult (α : Type) where
  | ok (value : α)
  | err (e : JsError)
  | stillRunning
deriving DecidableEq, Repr

/-- The `find` predicate in src/index.js:48-50:
`d.commit_ref === commitSha && (!context || d.context === context)`.
`context = none` models the falsy (empty / undefined) case. -/
def matchesDeployment (commitSha : String) (context : Option String) (d : Deployment) : Bool :=
  d.commit_ref == commitSha &&
    (match context with
     | none => true
     | some c => d.context == some c)

/-- `getCurrentDeploymentIfCreated` from src/index.js:41-51.
`resp` is the `data` of the list request (`none` models null/undefined
data, which throws `Failed to get deployments for site`); otherwise the
first matching deployment of the list, in list order, is returned. -/
def getCurrentDeploymentIfCreated (resp : Option (List Deployment))
    (commitSha : String) (context : Option String) : Except JsError (Option Deployment) :=
  match resp with
  | none => Except.error (JsError.error "Failed to get deployments for site")
  | some netlifyDeployments =>
      Except.ok (netlifyDeployments.find? (matchesDeployment commitSha context))

/-- The creation-phase timeout message of src/index.js:30-32. -/
def creationTimeoutMsg (timeoutSeconds : ℚ) : String :=
  "Timeout reached: Deployment was not ready within " ++ toString timeoutSeconds ++ " seconds."

/-- `waitForDeployCreation` / its inner `checkContinually` loop
(src/index.js:15-39), over per-iteration oracle data.  Each iteration
issues the list request, returns a found deployment, propagates the
fetch error, otherwise checks `ellapsedSeconds() > timeoutSeconds`
(note: no argument is passed, so the elapsed value is NaN), and on
no timeout sleeps `retrySeconds = 5` and recurses. -/
def waitForDeployCreation (url commitSha : String) (timeoutSeconds : ℚ)
    (context : Option String) :
    List (ℚ × Option (List Deployment)) → List Effect × WaitResult Deployment
  | [] => ([], WaitResult.stillRunning)
  | (now, resp) :: rest =>
    match getCurrentDeploymentIfCreated resp commitSha context with
    | Except.error e => ([Effect.httpGet url], WaitResult.err e)
    | Except.ok (some currentDeployment) => ([Effect.httpGet url], WaitResult.ok currentDeployment)
    | Except.ok none =>
      if jsGt (ellapsedSeconds none now) (JsNum.num timeoutSeconds) then
        ([Effect.httpGet url], WaitResult.err (JsError.error (creationTimeoutMsg timeoutSeconds)))
      else
        let r := waitForDeployCreation url commitSha timeoutSeconds context rest
        (Effect.httpGet url :: Effect.sleep 5 :: r.1, r.2)

/-- The TypeError thrown by `deploy.state` (src/index.js:85) when the
status response's `data` is null. -/
def nullStateMsg : String := "Cannot read properties of null (reading 'state')"

/-- `isCurrentDeploymentReady` from src/index.js:83-87: reads the
deployment's `state` (throwing a TypeError when the fetched `data` is
null — there is no null guard), records it as the latest deploy state,
and tests membership in `READY_STATES`.  Returns (isReady, newLatest). -/
def isCurrentDeploymentReady (resp : Option Deployment) : Except JsError (Bool × String) :=
  match resp with
  | none => Except.error (JsError.typeError nullStateMsg)
  | some deploy => Except.ok (READY_STATES.contains deploy.state, deploy.state)

/-- The readiness-phase timeout message of src/index.js:70-72. -/
def readinessTimeoutMsg (timeoutSeconds : ℚ) (latestDeployState : String) : String :=
  "Timeout reached: Deployment was not ready within " ++ toString timeoutSeconds ++
    " seconds. Last known deployment state: " ++ latestDeployState ++ "."

/-- The `checkContinually` loop of `waitForReadiness` (src/index.js:61-81),
with the mutable `latestDeployState` threaded explicitly.  As in the
creation waiter, the timeout check calls `ellapsedSeconds()` with no
argument; the retry interval is `retrySeconds = 10`. -/
def waitForReadinessGo (url : String) (timeoutSeconds : ℚ) (latestDeployState : String) :
    List (ℚ × Option Deployment) → List Effect × WaitResult Unit
  | [] => ([], WaitResult.stillRunning)
  | (now, resp) :: rest =>
    match isCurrentDeploymentReady resp with
    | Except.error e => ([Effect.httpGet url], WaitResult.err e)
    | Except.ok (isReady, latest) =>
      if isReady then ([Effect.httpGet url], WaitResult.ok ())
      else if jsGt (ellapsedSeconds none now) (JsNum.num timeoutSeconds) then
        ([Effect.httpGet url],
          WaitResult.err (JsError.error (readinessTimeoutMsg timeoutSeconds latest)))
      else
        let r := waitForReadinessGo url timeoutSeconds latest rest
        (Effect.httpGet url :: Effect.sleep 10 :: r.1, r.2)

/-- `waitForReadiness` from src/index.js:54-88: the loop started with
`latestDeployState = '(unknown)'`. -/
def waitForReadiness (url : String) (timeoutSeconds : ℚ)
    (responses : List (ℚ × Option Deployment)) : List Effect × WaitResult Unit :=
  waitForReadinessGo url timeoutSeconds "(unknown)" responses

/-- The `for (let i = 0; i < iterations; i++)` loop of `waitForUrl`
(src/index.js:92-103).  `iterations` is the possibly fractional JS
number `timeoutSeconds / 3`; the guard is the source's `i < iterations`.
`probe i` tells whether the `axios.head` call of attempt `i` succeeds;
a failed attempt sleeps 3 seconds (`setTimeout(r, 3000)`).  Returns the
effect trace and whether some attempt succeeded. -/
def waitForUrlFrom (url : String) (probe : ℕ → Bool) (iterations : ℚ) (i : ℕ) :
    List Effect × Bool :=
  if h : (i : ℚ) < iterations then
    if probe i then ([Effect.httpHead url], true)
    else
      let r := waitForUrlFrom url probe iterations (i + 1)
      (Effect.httpHead url :: Effect.sleep 3 :: r.1, r.2)
  else ([], false)
termination_by ⌈iterations⌉₊ - i
decreasing_by
  have h2 := Nat.lt_ceil.mpr h
  omega

/-- `waitForUrl` from src/index.js:90-105: runs the attempt loop with
`iterations = timeoutSeconds / 3`; when the loop exhausts without a
success it reports failure via `core.setFailed` (it never throws). -/
def waitForUrl (url : String) (timeoutSeconds : ℚ) (probe : ℕ → Bool) :
    List Effect × Bool :=
  let r := waitForUrlFrom url probe (timeoutSeconds / 3) 0
  if r.2 then r
  else (r.1 ++ [Effect.setFailed ("Timeout reached: Unable to connect to " ++ url)], false)

/-- Number of HEAD requests (attempts) in an effect trace. -/
def headCount (trace : List Effect) : ℕ :=
  trace.countP fun e =>
    match e with
    | Effect.httpHead _ => true
    | _ => false

/-- Commit-sha resolution of src/index.js:110-113: the pull-request head
sha when the event is a pull_request, else the push sha. -/
def resolveCommitSha (eventName prHeadSha sha : String) : String :=
  if eventName == "pull_request" then prHeadSha else sha

/-- JavaScript `n || d` on a number `n`: `d` when `n` is falsy (NaN or 0). -/
def jsNumOr (n : JsNum) (d : ℚ) : ℚ :=
  match n with
  | JsNum.nan => d
  | JsNum.num q => if q = 0 then d else q

/-- `MAX_CREATE_TIMEOUT = 60 * 5` (src/index.js:114). -/
def MAX_CREATE_TIMEOUT : ℚ := 60 * 5

/-- `MAX_WAIT_TIMEOUT = 60 * 15` (src/index.js:115). -/
def MAX_WAIT_TIMEOUT : ℚ := 60 * 15

/-- Inputs and oracle data of one execution of `run` (src/index.js:107-164).
`maxTimeoutInput` is the already-converted JS number
`Number(core.getInput('max_timeout'))` (NaN when not numeric).
The response lists and `urlProbe` supply the oracle data for the three
polling phases. -/
structure RunEnv where
  netlifyToken : String
  eventName : String
  prHeadSha : String
  ghSha : String
  maxTimeoutInput : JsNum
  siteId : String
  contextInput : String
  deployListResponses : List (ℚ × Option (List Deployment))
  readinessResponses : List (ℚ × Option Deployment)
  urlProbe : ℕ → Bool

/-- `MAX_READY_TIMEOUT = Number(core.getInput('max_timeout')) || 60`
(src/index.js:116). -/
def MAX_READY_TIMEOUT (env : RunEnv) : ℚ :=
  jsNumOr env.maxTimeoutInput 60

/-- The commit sha used by `run` for this environment. -/
def runCommitSha (env : RunEnv) : String :=
  resolveCommitSha env.eventName env.prHeadSha env.ghSha

/-- The `context` input as passed to `waitForDeployCreation`; the empty
string from `core.getInput` is falsy. -/
def runContext (env : RunEnv) : Option String :=
  if env.contextInput = "" then none else some env.contextInput

def tokenMissingMsg : String :=
  "Please set NETLIFY_TOKEN env variable to your Netlify Personal Access Token secret"

def commitMissingMsg : String := "Could not determine GitHub commit"

def siteIdMissingMsg : String := "Required field `site_id` was not provided"

/-- The missing-configuration checks of src/index.js:120-130.  Each
missing value calls `core.setFailed` and execution continues. -/
def configFailEffects (env : RunEnv) : List Effect :=
  (if env.netlifyToken = "" then [Effect.setFailed tokenMissingMsg] else []) ++
    (if runCommitSha env = "" then [Effect.setFailed commitMissingMsg] else []) ++
      (if env.siteId = "" then [Effect.setFailed siteIdMissingMsg] else [])

/-- The deployments-list endpoint of src/index.js:140. -/
def deployListUrl (siteId : String) : String :=
  "https://api.netlify.com/api/v1/sites/" ++ siteId ++ "/deploys"

/-- The single-deployment endpoint of src/index.js:155. -/
def deployStatusUrl (siteId deployId : String) : String :=
  "https://api.netlify.com/api/v1/sites/" ++ siteId ++ "/deploys/" ++ deployId

/-- The derived public URL of src/index.js:146:
`https://{deploy_id}--{deploy_name}.netlify.app`. -/
def deployUrl (d : Deployment) : String :=
  "https://" ++ d.id ++ "--" ++ d.name ++ ".netlify.app"

/-- Phase 1 of `run`: the creation waiter invocation of src/index.js:139-144. -/
def phase1 (env : RunEnv) : List Effect × WaitResult Deployment :=
  waitForDeployCreation (deployListUrl env.siteId) (runCommitSha env)
    MAX_CREATE_TIMEOUT (runContext env) env.deployListResponses

/-- Phases 2 and 3 of `run` (src/index.js:154-160), after the outputs
are set: the readiness waiter, then — only when it returns — the URL
waiter.  A thrown error is caught at the top of `run` and reported via
`core.setFailed` with its message. -/
def laterPhases (env : RunEnv) (d : Deployment) : List Effect :=
  let r2 := waitForReadiness (deployStatusUrl env.siteId d.id) MAX_WAIT_TIMEOUT
    env.readinessResponses
  r2.1 ++
    (match r2.2 with
     | WaitResult.err e => [Effect.setFailed (errorMessage e)]
     | WaitResult.stillRunning => []
     | WaitResult.ok _ => (waitForUrl (deployUrl d) (MAX_READY_TIMEOUT env) env.urlProbe).1)

/-- The whole of `run` (src/index.js:107-164) as an effect trace: the
missing-configuration failures, phase 1, then on success the two
`core.setOutput` calls (deploy_id and url) followed by phases 2 and 3;
a phase-1 error is caught and reported via `core.setFailed`. -/
def runEffects (env : RunEnv) : List Effect :=
  configFailEffects env ++ (phase1 env).1 ++
    (match (phase1 env).2 with
     | WaitResult.ok d =>
         Effect.setOutput "deploy_id" d.id :: Effect.setOutput "url" (deployUrl d) ::
           laterPhases env d
     | WaitResult.err e => [Effect.setFailed (errorMessage e)]
     | WaitResult.stillRunning => [])

/-!  Sample deployments and environments used by concrete witnesses. -/

/-- A deployment matching commit `abc123`, not yet ready. -/
def d5 : Deployment :=
  { id := "d5", name := "mysite", commit_ref := "abc123", context := none, state := "new" }

/-- A deployment whose state is `error`. -/
def dErr : Deployment :=
  { id := "de", name := "mysite", commit_ref := "abc123", context := none, state := "error" }

/-- A deployment whose state is `ready`. -/
def dReady : Deployment :=
  { id := "dr", name := "mysite", commit_ref := "abc123", context := none, state := "ready" }

/-!  Helper lemmas. -/

/-- `List.find?` returns the first element satisfying the predicate. -/
theorem find?_append_first {α : Type} (p : α → Bool) :
    ∀ (l₁ : List α) (a : α) (l₂ : List α), (∀ x ∈ l₁, p x = false) → p a = true →
      (l₁ ++ a :: l₂).find? p = some a := by
  intro l₁
  induction l₁ with
  | nil =>
    intro a l₂ _ ha
    simp [List.find?_cons, ha]
  | cons x xs ih =>
    intro a l₂ h ha
    have hx : p x = false := h x (by simp)
    simp only [List.cons_append, List.find?_cons, hx]
    exact ih a l₂ (fun y hy => h y (by simp [hy])) ha

/-!  Claims. -/

/-- C7: if the deployment-list fetch yields absent/null data, the
creation waiter fails on that very iteration with the fetch-failed
error, for every timeout budget and every remaining iteration schedule:
no retry happens (no sleep in the trace, `rest` is never consulted) and
the timeout budget plays no role. -/
theorem fetch_failed_fails_immediately (url commitSha : String) (context : Option String)
    (timeoutSeconds now : ℚ) (rest : List (ℚ × Option (List Deployment))) :
    waitForDeployCreation url commitSha timeoutSeconds context ((now, none) :: rest) =
      ([Effect.httpGet url],
        WaitResult.err (JsError.error "Failed to get deployments for site")) := by
  simp [waitForDeployCreation, getCurrentDeploymentIfCreated]

/-- C5: the creation waiter returns the first deployment, in list order,
whose `commit_ref` equals the target and (when a context tag is given)
whose `context` equals it; with no context tag the predicate only tests
`commit_ref`; and a single-element matching list succeeds on the first
poll. -/
theorem creation_returns_first_match :
    (∀ (commitSha : String) (context : Option String) (ds₁ : List Deployment)
        (d : Deployment) (ds₂ : List Deployment),
        (∀ e ∈ ds₁, matchesDeployment commitSha context e = false) →
        matchesDeployment commitSha context d = true →
        getCurrentDeploymentIfCreated (some (ds₁ ++ d :: ds₂)) commitSha context =
          Except.ok (some d))
    ∧ (∀ (commitSha : String) (d : Deployment),
        matchesDeployment commitSha none d = (d.commit_ref == commitSha))
    ∧ (∀ (url commitSha : String) (timeoutSeconds now : ℚ) (d : Deployment)
        (rest : List (ℚ × Option (List Deployment))),
        d.commit_ref = commitSha →
        waitForDeployCreation url commitSha timeoutSeconds none ((now, some [d]) :: rest) =
          ([Effect.httpGet url], WaitResult.ok d)) := by
  refine ⟨?_, ?_, ?_⟩
  · intro commitSha context ds₁ d ds₂ h hd
    simp only [getCurrentDeploymentIfCreated]
    rw [find?_append_first _ ds₁ d ds₂ h hd]
  · intro commitSha d
    simp [matchesDeployment]
  · intro url commitSha timeoutSeconds now d rest hd
    simp [waitForDeployCreation, getCurrentDeploymentIfCreated, List.find?_cons,
      matchesDeployment, hd]

/-- Witness for C5 at a concrete one-element deployments list. -/
theorem creation_returns_first_match_witness :
    getCurrentDeploymentIfCreated (some [d5]) "abc123" none = Except.ok (some d5) ∧
    waitForDeployCreation "u" "abc123" 300 none [((0 : ℚ), some [d5])] =
      ([Effect.httpGet "u"], WaitResult.ok d5) :=
  ⟨creation_returns_first_match.1 "abc123" none [] d5 [] (by decide) (by decide),
   creation_returns_first_match.2.2 "u" "abc123" 300 0 d5 [] rfl⟩

/-- C1 (bug evidence): the creation waiter's timeout branch can never
fire.  The check at src/index.js:29 calls `ellapsedSeconds()` with no
argument, so it compares `NaN > timeoutSeconds`, which is always false.
Hence for any budget (in particular 10 s) and a deployments list that
never matches, the waiter keeps retrying for as many iterations as one
cares to run it — it never throws the creation timeout error. -/
theorem creation_timeout_never_fires (url commitSha : String) (context : Option String)
    (timeoutSeconds : ℚ) (iters : List (ℚ × Option (List Deployment)))
    (h : ∀ p ∈ iters, p.2 = some ([] : List Deployment)) :
    (waitForDeployCreation url commitSha timeoutSeconds context iters).2 =
      WaitResult.stillRunning := by
  induction iters with
  | nil => rfl
  | cons p rest ih =>
    obtain ⟨now, resp⟩ := p
    have h0 : resp = some [] := h (now, resp) (List.mem_cons_self _ _)
    subst h0
    simpa [waitForDeployCreation, getCurrentDeploymentIfCreated, ellapsedSeconds, jsGt]
      using ih fun q hq => h q (List.mem_cons_of_mem _ hq)

/-- Witness for C1: budget 10 s, empty (never-matching) deployment lists,
polls at 0 s, 5 s, 11 s and 16 s — well past the budget — and the waiter
is still running. -/
theorem creation_timeout_never_fires_witness :
    (∀ p ∈ [((0 : ℚ), some ([] : List Deployment)), (5000, some []), (11000, some []),
        (16000, some [])], p.2 = some ([] : List Deployment)) ∧
    (waitForDeployCreation "u" "abc" 10 none
        [((0 : ℚ), some ([] : List Deployment)), (5000, some []), (11000, some []),
          (16000, some [])]).2 = WaitResult.stillRunning :=
  ⟨by decide, creation_timeout_never_fires "u" "abc" none 10 _ (by decide)⟩

/-- C2 (bug evidence): the readiness waiter's timeout branch can never
fire either — src/index.js:69 also calls `ellapsedSeconds()` without the
start timestamp, comparing `NaN > timeoutSeconds`.  With every poll
returning state `"error"` the waiter retries for as many iterations as
it is run — it never throws the readiness timeout error (so no message
containing the budget and the state is ever produced). -/
theorem readiness_timeout_never_fires (url : String) (timeoutSeconds : ℚ) (latest : String)
    (iters : List (ℚ × Option Deployment))
    (h : ∀ p ∈ iters, ∃ d, p.2 = some d ∧ d.state = "error") :
    (waitForReadinessGo url timeoutSeconds latest iters).2 = WaitResult.stillRunning := by
  induction iters generalizing latest with
  | nil => rfl
  | cons p rest ih =>
    obtain ⟨now, resp⟩ := p
    obtain ⟨d, hres, hstate⟩ := h (now, resp) (List.mem_cons_self _ _)
    have hres2 : resp = some d := hres
    subst hres2
    have hns : d.state ∉ READY_STATES := by rw [hstate]; decide
    simpa [waitForReadinessGo, isCurrentDeploymentReady, hns, ellapsedSeconds, jsGt]
      using ih d.state fun q hq => h q (List.mem_cons_of_mem _ hq)

/-- Witness for C2: budget 5 s, state always `"error"`, polls at 0 s,
10 s and 20 s — far past the budget — and the waiter is still running. -/
theorem readiness_timeout_never_fires_witness :
    (waitForReadinessGo "u" 5 "(unknown)"
        [((0 : ℚ), some dErr), (10000, some dErr), (20000, some dErr)]).2 =
      WaitResult.stillRunning :=
  readiness_timeout_never_fires "u" 5 "(unknown)" _ (by
    intro p hp
    simp only [List.mem_cons, List.not_mem_nil, or_false] at hp
    rcases hp with rfl | rfl | rfl <;> exact ⟨dErr, rfl, rfl⟩)

/-- C6: the readiness waiter returns successfully on an iteration exactly
when the fetched state is in `READY_STATES = ["ready", "current"]`; on
any other state it does not succeed but sleeps the 10-second retry
interval and continues with the next iteration. -/
theorem readiness_ready_state_set :
    READY_STATES = ["ready", "current"]
    ∧ (∀ (url : String) (timeoutSeconds : ℚ) (latest : String) (now : ℚ) (d : Deployment)
        (rest : List (ℚ × Option Deployment)),
        d.state ∈ READY_STATES →
        waitForReadinessGo url timeoutSeconds latest ((now, some d) :: rest) =
          ([Effect.httpGet url], WaitResult.ok ()))
    ∧ (∀ (url : String) (timeoutSeconds : ℚ) (latest : String) (now : ℚ) (d : Deployment)
        (rest : List (ℚ × Option Deployment)),
        d.state ∉ READY_STATES →
        waitForReadinessGo url timeoutSeconds latest ((now, some d) :: rest) =
          (Effect.httpGet url :: Effect.sleep 10 ::
              (waitForReadinessGo url timeoutSeconds d.state rest).1,
            (waitForReadinessGo url timeoutSeconds d.state rest).2)) := by
  refine ⟨rfl, ?_, ?_⟩
  · intro url timeoutSeconds latest now d rest h
    simp [waitForReadinessGo, isCurrentDeploymentReady, h]
  · intro url timeoutSeconds latest now d rest h
    simp [waitForReadinessGo, isCurrentDeploymentReady, h, ellapsedSeconds, jsGt]

/-- Witness for C6: a `"ready"` poll succeeds immediately; an `"error"`
poll retries (HTTP GET, then a 10-second sleep, then the next iteration). -/
theorem readiness_ready_state_set_witness :
    waitForReadinessGo "u" 900 "(unknown)" [((0 : ℚ), some dReady)] =
      ([Effect.httpGet "u"], WaitResult.ok ()) ∧
    waitForReadinessGo "u" 900 "(unknown)" [((0 : ℚ), some dErr)] =
      (Effect.httpGet "u" :: Effect.sleep 10 ::
          (waitForReadinessGo "u" 900 dErr.state []).1,
        (waitForReadinessGo "u" 900 dErr.state []).2) :=
  ⟨readiness_ready_state_set.2.1 "u" 900 "(unknown)" 0 dReady [] (by decide),
   readiness_ready_state_set.2.2 "u" 900 "(unknown)" 0 dErr [] (by decide)⟩

/-- A probe under which every URL attempt fails. -/
def urlFail : ℕ → Bool := fun _ => false

/-- The effect trace of `n` failed URL attempts. -/
def failTrace (url : String) : ℕ → List Effect
  | 0 => []
  | n + 1 => Effect.httpHead url :: Effect.sleep 3 :: failTrace url n

/-- When every attempt fails, the URL loop starting at counter `i` runs
exactly `⌈iterations⌉₊ - i` more attempts and reports no success. -/
theorem waitForUrlFrom_allFail (url : String) (probe : ℕ → Bool) (iterations : ℚ) :
    ∀ n i, (∀ j, probe j = false) → ⌈iterations⌉₊ - i = n →
      waitForUrlFrom url probe iterations i = (failTrace url n, false) := by
  intro n
  induction n with
  | zero =>
    intro i hp hn
    rw [waitForUrlFrom]
    have hge : ¬ ((i : ℚ) < iterations) := by
      intro hlt
      have := Nat.lt_ceil.mpr hlt
      omega
    simp [hge, failTrace]
  | succ n ih =>
    intro i hp hn
    have hi : i < ⌈iterations⌉₊ := by omega
    have hlt : (i : ℚ) < iterations := Nat.lt_ceil.mp hi
    rw [waitForUrlFrom]
    simp only [hlt, dite_true, dif_pos, hp i, Bool.false_eq_true, if_false]
    rw [ih (i + 1) hp (by omega)]
    simp [failTrace]

/-- `headCount` distributes over trace concatenation. -/
theorem headCount_append (a b : List Effect) :
    headCount (a ++ b) = headCount a + headCount b :=
  List.countP_append _ _ _

/-- `failTrace` contains exactly `n` HEAD attempts. -/
theorem headCount_failTrace (url : String) : ∀ n, headCount (failTrace url n) = n := by
  intro n
  induction n with
  | zero => rfl
  | succ n ih => simp [failTrace, headCount, List.countP_cons] at ih ⊢; omega

/-- C4: with a 9-second budget and a URL failing on every attempt,
`waitForUrl` makes exactly 3 HEAD attempts and then reports the
"unable to connect" failure through `core.setFailed` — its result type
carries no thrown error, the failure is just an effect in the trace;
and whenever an attempt succeeds the loop returns at once, with that
attempt as its only remaining action. -/
theorem waitForUrl_budget9_three_attempts :
    waitForUrl "u" 9 urlFail =
      ([Effect.httpHead "u", Effect.sleep 3, Effect.httpHead "u", Effect.sleep 3,
        Effect.httpHead "u", Effect.sleep 3,
        Effect.setFailed ("Timeout reached: Unable to connect to " ++ "u")], false)
    ∧ headCount (waitForUrl "u" 9 urlFail).1 = 3
    ∧ (∀ (url : String) (probe : ℕ → Bool) (iterations : ℚ) (i : ℕ),
        (i : ℚ) < iterations → probe i = true →
        waitForUrlFrom url probe iterations i = ([Effect.httpHead url], true)) := by
  have hceil : (⌈(9 : ℚ) / 3⌉₊ : ℕ) = 3 := by norm_num
  have hr := waitForUrlFrom_allFail "u" urlFail (9 / 3) 3 0 (fun _ => rfl) (by rw [hceil])
  refine ⟨?_, ?_, ?_⟩
  · simp [waitForUrl, hr, failTrace]
  · simp [waitForUrl, hr, failTrace, headCount, List.countP_cons, List.countP_append]
  · intro url probe iterations i h1 h2
    rw [waitForUrlFrom]
    simp [h1, h2]

/-- Witness for C4's success clause: an attempt that succeeds ends the
loop immediately. -/
theorem waitForUrl_budget9_three_attempts_witness :
    waitForUrlFrom "u" (fun _ => true) 3 0 = ([Effect.httpHead "u"], true) :=
  waitForUrl_budget9_three_attempts.2.2 "u" (fun _ => true) 3 0 (by norm_num) rfl

/-- C9: the URL loop's guard is the source's unfloored `i < timeout / 3`
comparison, so when every attempt fails the number of attempts is
exactly `⌈timeout / 3⌉₊` — for a budget of 10 seconds that is 4
attempts, not 3. -/
theorem waitForUrl_attempt_bound :
    (∀ (url : String) (timeoutSeconds : ℚ) (probe : ℕ → Bool),
        (∀ j, probe j = false) →
        headCount (waitForUrl url timeoutSeconds probe).1 = ⌈timeoutSeconds / 3⌉₊)
    ∧ headCount (waitForUrl "u" 10 urlFail).1 = 4 := by
  have main : ∀ (url : String) (timeoutSeconds : ℚ) (probe : ℕ → Bool),
      (∀ j, probe j = false) →
      headCount (waitForUrl url timeoutSeconds probe).1 = ⌈timeoutSeconds / 3⌉₊ := by
    intro url timeoutSeconds probe hp
    have hr := waitForUrlFrom_allFail url probe (timeoutSeconds / 3)
      ⌈timeoutSeconds / 3⌉₊ 0 hp (by omega)
    have hw : (waitForUrl url timeoutSeconds probe).1 =
        failTrace url ⌈timeoutSeconds / 3⌉₊ ++
          [Effect.setFailed ("Timeout reached: Unable to connect to " ++ url)] := by
      simp [waitForUrl, hr]
    rw [hw, headCount_append, headCount_failTrace url]
    simp [headCount]
  refine ⟨main, ?_⟩
  have h4 : (⌈(10 : ℚ) / 3⌉₊ : ℕ) = 4 := by
    rw [Nat.ceil_eq_iff (by norm_num)]
    norm_num
  rw [main "u" 10 urlFail (fun _ => rfl), h4]

/-- Witness for C9 at a concrete all-failing probe and budget 10. -/
theorem waitForUrl_attempt_bound_witness :
    headCount (waitForUrl "w" 10 urlFail).1 = ⌈(10 : ℚ) / 3⌉₊ :=
  waitForUrl_attempt_bound.1 "w" 10 urlFail (fun _ => rfl)

/-- An environment with the NETLIFY_TOKEN missing and one deployment-list
poll answered by an empty list. -/
def envC3 : RunEnv :=
  { netlifyToken := "", eventName := "push", prHeadSha := "", ghSha := "abc",
    maxTimeoutInput := JsNum.nan, siteId := "site1", contextInput := "",
    deployListResponses := [(0, some [])], readinessResponses := [],
    urlProbe := urlFail }

/-- C3 counterexample: with the access token absent, the run does report
the missing-configuration failure, but it still issues the
deployment-list HTTP request — `run` only records the failure and keeps
executing, so "never issues any HTTP call" is false. -/
theorem run_missing_token_still_calls_http :
    envC3.netlifyToken = "" ∧
    Effect.setFailed tokenMissingMsg ∈ runEffects envC3 ∧
    Effect.httpGet (deployListUrl "site1") ∈ runEffects envC3 := by
  refine ⟨rfl, ?_, ?_⟩ <;> decide

/-- Any iteration of the creation waiter issues the list request first. -/
theorem httpGet_mem_waitForDeployCreation (url commitSha : String) (timeoutSeconds : ℚ)
    (context : Option String) (now : ℚ) (resp : Option (List Deployment))
    (rest : List (ℚ × Option (List Deployment))) :
    Effect.httpGet url ∈
      (waitForDeployCreation url commitSha timeoutSeconds context ((now, resp) :: rest)).1 := by
  rcases resp with _ | ds
  · simp [waitForDeployCreation, getCurrentDeploymentIfCreated]
  · rcases hf : ds.find? (matchesDeployment commitSha context) with _ | d <;>
      simp [waitForDeployCreation, getCurrentDeploymentIfCreated, hf, ellapsedSeconds, jsGt]

/-- C3 amended: a missing token, commit sha or site id is each reported
through the failure side channel, but the run proceeds: whenever the
creation waiter gets to perform an iteration at all, the deployment-list
HTTP request is issued regardless of the missing configuration. -/
theorem run_config_missing_reported_but_run_proceeds (env : RunEnv) :
    (env.netlifyToken = "" → Effect.setFailed tokenMissingMsg ∈ runEffects env)
    ∧ (runCommitSha env = "" → Effect.setFailed commitMissingMsg ∈ runEffects env)
    ∧ (env.siteId = "" → Effect.setFailed siteIdMissingMsg ∈ runEffects env)
    ∧ (env.deployListResponses ≠ [] →
        Effect.httpGet (deployListUrl env.siteId) ∈ runEffects env) := by
  refine ⟨?_, ?_, ?_, ?_⟩
  · intro h
    simp [runEffects, configFailEffects, h]
  · intro h
    simp [runEffects, configFailEffects, h]
  · intro h
    simp [runEffects, configFailEffects, h]
  · intro hne
    obtain ⟨p, rest, hres⟩ : ∃ p rest, env.deployListResponses = p :: rest := by
      cases h : env.deployListResponses with
      | nil => exact absurd h hne
      | cons p r => exact ⟨p, r, rfl⟩
    obtain ⟨now, resp⟩ := p
    simp only [runEffects, List.mem_append]
    refine Or.inl (Or.inr ?_)
    rw [phase1, hres]
    exact httpGet_mem_waitForDeployCreation _ _ _ _ now resp rest

/-- Witness for C3's amended statement at the concrete environment. -/
theorem run_config_missing_witness :
    Effect.setFailed tokenMissingMsg ∈ runEffects envC3 ∧
    Effect.httpGet (deployListUrl envC3.siteId) ∈ runEffects envC3 :=
  ⟨(run_config_missing_reported_but_run_proceeds envC3).1 rfl,
   (run_config_missing_reported_but_run_proceeds envC3).2.2.2 (by decide)⟩

/-- The deployment of the spec's byte-for-byte URL example. -/
def dXyz : Deployment :=
  { id := "xyz", name := "mysite", commit_ref := "", context := none, state := "" }

/-- An environment whose creation phase succeeds with `d5` on the first
poll and whose readiness phase then gets a null status response. -/
def envC8 : RunEnv :=
  { netlifyToken := "tok", eventName := "push", prHeadSha := "", ghSha := "abc123",
    maxTimeoutInput := JsNum.nan, siteId := "site1", contextInput := "",
    deployListResponses := [(0, some [d5])],
    readinessResponses := [(0, none)], urlProbe := urlFail }

/-- C8: as soon as phase 1 yields a deployment `d`, the run publishes
the outputs `deploy_id = d.id` and `url = deployUrl d`, before any of
the phase-2/phase-3 effects (`laterPhases`), and unconditionally in
whatever those phases then do; and the derived URL is byte-for-byte
`https://{id}--{name}.netlify.app` with no trailing slash. -/
theorem outputs_published_after_creation :
    (∀ (env : RunEnv) (d : Deployment), (phase1 env).2 = WaitResult.ok d →
        runEffects env =
          configFailEffects env ++ (phase1 env).1 ++
            (Effect.setOutput "deploy_id" d.id :: Effect.setOutput "url" (deployUrl d) ::
              laterPhases env d))
    ∧ deployUrl dXyz = "https://xyz--mysite.netlify.app" := by
  constructor
  · intro env d h
    simp only [runEffects, h]
  · rfl

/-- Witness for C8: in `envC8` phase 1 succeeds with `d5` and phase 2
subsequently fails, yet the two outputs sit in the trace right after
phase 1. -/
theorem outputs_published_witness :
    runEffects envC8 =
      configFailEffects envC8 ++ (phase1 envC8).1 ++
        (Effect.setOutput "deploy_id" d5.id :: Effect.setOutput "url" (deployUrl d5) ::
          laterPhases envC8 d5) :=
  outputs_published_after_creation.1 envC8 d5 (by decide)

/-- C10: a null `data` field in the readiness fetch makes
`isCurrentDeploymentReady` dereference the missing record's `state` and
throw a TypeError (there is no null guard); the readiness waiter
propagates it, and the run's top-level catch reports the raw TypeError
message through `core.setFailed` — not the FetchFailed-style message of
the creation waiter. -/
theorem readiness_null_data_throws_typeError :
    isCurrentDeploymentReady none = Except.error (JsError.typeError nullStateMsg)
    ∧ (∀ (url : String) (timeoutSeconds : ℚ) (latest : String) (now : ℚ)
        (rest : List (ℚ × Option Deployment)),
        waitForReadinessGo url timeoutSeconds latest ((now, none) :: rest) =
          ([Effect.httpGet url], WaitResult.err (JsError.typeError nullStateMsg)))
    ∧ (∀ (env : RunEnv) (d : Deployment) (now : ℚ)
        (rest : List (ℚ × Option Deployment)),
        (phase1 env).2 = WaitResult.ok d →
        env.readinessResponses = (now, none) :: rest →
        runEffects env =
          configFailEffects env ++ (phase1 env).1 ++
            [Effect.setOutput "deploy_id" d.id, Effect.setOutput "url" (deployUrl d),
              Effect.httpGet (deployStatusUrl env.siteId d.id),
              Effect.setFailed nullStateMsg]) := by
  refine ⟨rfl, ?_, ?_⟩
  · intro url timeoutSeconds latest now rest
    simp [waitForReadinessGo, isCurrentDeploymentReady]
  · intro env d now rest h1 h2
    simp only [runEffects, h1]
    simp [laterPhases, waitForReadiness, h2, waitForReadinessGo, isCurrentDeploymentReady,
      errorMessage]

/-- Witness for C10 at the concrete environment `envC8`, whose readiness
poll returns null data. -/
theorem readiness_null_data_witness :
    runEffects envC8 =
      configFailEffects envC8 ++ (phase1 envC8).1 ++
        [Effect.setOutput "deploy_id" d5.id, Effect.setOutput "url" (deployUrl d5),
          Effect.httpGet (deployStatusUrl envC8.siteId d5.id),
          Effect.setFailed nullStateMsg] :=
  readiness_null_data_throws_typeError.2.2 envC8 d5 0 [] (by decide) rfl
